import Mathlib

/-!
Verification of the rust_Compiler repository: a shallow embedding in Lean 4 of
its lexer-free core pipeline (AST, tree-walking interpreter from
src/interpreter.rs, recursive-descent parser from src/parser.rs, and static
type checker from src/type_checker.rs), together with theorems settling the
behavioural claims of the specification against it.

Modelling conventions:
- Rust i64 values are modelled as Int.  None of the properties checked here
  involve i64 overflow; division, where Rust's operator panics on a zero
  divisor, is modelled explicitly (see evalBinOp).
- Rust HashMap<String, V> is modelled as an association list in which an
  insert prepends and lookup takes the first match, giving HashMap's
  insert-overwrites / get / contains_key behaviour.
- &mut self methods are modelled by threading the state value: each function
  consumes a state and returns the updated state alongside its result.
- The interpreter and the parser can diverge (source-level loops, recursion
  through the function table), so every such function takes a fuel argument
  and returns a distinguished fuelOut outcome when it is exhausted.  fuelOut
  is an artifact of the model: it always propagates and is never confused
  with a source-level error.
- Rust panics (divide by zero) are a distinct outcome from
  CompilerError::RuntimeError values: a panic unwinds through every caller,
  while a RuntimeError is an ordinary Result::Err value that the code can
  (and in one place does) drop on the floor.
-/

/-- src/error.rs: CompilerError, carrying only a message string per variant. -/
inductive CompilerError where
  | SyntaxError : String → CompilerError
  | TypeError : String → CompilerError
  | RuntimeError : String → CompilerError
deriving Repr, DecidableEq

/-- src/ast.rs: BinOp. -/
inductive BinOp where
  | Add
  | Sub
  | Mul
  | Div
  | Gt
  | Lt
  | Eq
  | Neq
deriving Repr, DecidableEq

/-- src/ast.rs: Expr.  Number carries a Rust i64, modelled as Int. -/
inductive Expr where
  | Number : Int → Expr
  | Bool : Bool → Expr
  | Variable : String → Expr
  | Binary : Expr → BinOp → Expr → Expr
  | Call : String → List Expr → Expr
deriving Repr

/-- src/ast.rs: Stmt. -/
inductive Stmt where
  | Let : String → Expr → Stmt
  | Assign : String → Expr → Stmt
  | Expr : Expr → Stmt
  | If : Expr → List Stmt → List Stmt → Stmt
  | While : Expr → List Stmt → Stmt
  | DoWhile : List Stmt → Expr → Stmt
  | For : String → Expr → Expr → Expr → List Stmt → Stmt
  | FnDecl : String → List String → List Stmt → Stmt
  | Return : Expr → Stmt
deriving Repr

/-- HashMap::get, on the association-list model (first match wins). -/
def hmLookup {α : Type} : List (String × α) → String → Option α
  | [], _ => none
  | (k, v) :: rest, key => if k = key then some v else hmLookup rest key

/-- HashMap::insert, on the association-list model: prepending overwrites
under hmLookup's first-match rule. -/
def hmInsert {α : Type} (m : List (String × α)) (key : String) (v : α) :
    List (String × α) :=
  (key, v) :: m

/-- HashMap::contains_key. -/
def hmContains {α : Type} (m : List (String × α)) (key : String) : Bool :=
  (hmLookup m key).isSome

/-- src/interpreter.rs: the two fields of struct Interpreter — the flat
variable environment and the flat function table. -/
structure State where
  env : List (String × Int)
  functions : List (String × (List String × List Stmt))

/-- The empty state that Interpreter::new() constructs. -/
def State.new : State := { env := [], functions := [] }

/-- The non-Ok outcomes an interpreter step can have.  rtErr is an
Err(CompilerError::RuntimeError(msg)) value; panicked is a Rust panic, which
unwinds through every caller; fuelOut is the model's exhausted recursion
budget and always propagates. -/
inductive Fail where
  | rtErr : String → Fail
  | panicked : String → Fail
  | fuelOut : Fail
deriving Repr, DecidableEq

/-- Outcome of an interpreter step: an ordinary value or a Fail. -/
inductive EvalResult (α : Type) where
  | ok : α → EvalResult α
  | fail : Fail → EvalResult α
deriving Repr, DecidableEq

/-- The BinOp match inside Interpreter::eval_expr.  Rust's l / r on i64
panics when r = 0 ("attempt to divide by zero"); for a nonzero divisor it
truncates toward zero, which is Int.tdiv. -/
def evalBinOp (op : BinOp) (l r : Int) : EvalResult Int :=
  match op with
  | .Add => .ok (l + r)
  | .Sub => .ok (l - r)
  | .Mul => .ok (l * r)
  | .Div =>
    if r = 0 then .fail (.panicked "attempt to divide by zero")
    else .ok (Int.tdiv l r)
  | .Eq => .ok (if l = r then 1 else 0)
  | .Neq => .ok (if l = r then 0 else 1)
  | .Gt => .ok (if l > r then 1 else 0)
  | .Lt => .ok (if l < r then 1 else 0)

mutual

/-- Interpreter::eval_expr (src/interpreter.rs, lines 91-135).  The state is
threaded for &mut self, although eval_expr never mutates it (proved below as
evalExpr_preserves_state). -/
def evalExpr (fuel : Nat) (st : State) (e : Expr) : State × EvalResult Int :=
  match fuel with
  | 0 => (st, .fail .fuelOut)
  | fuel + 1 =>
    match e with
    | .Number n => (st, .ok n)
    | .Bool b => (st, .ok (if b then 1 else 0))
    | .Variable name =>
      match hmLookup st.env name with
      | some v => (st, .ok v)
      | none => (st, .fail (.rtErr ("Undefined variable: " ++ name)))
    | .Binary lhs op rhs =>
      match evalExpr fuel st lhs with
      | (st1, .ok l) =>
        match evalExpr fuel st1 rhs with
        | (st2, .ok r) => (st2, evalBinOp op l r)
        | (st2, .fail f) => (st2, .fail f)
      | (st1, .fail f) => (st1, .fail f)
    | .Call name args =>
      match hmLookup st.functions name with
      | some (params, body) =>
        if args.length ≠ params.length then
          (st, .fail (.rtErr "Incorrect argument count"))
        else
          match evalArgs fuel st (params.zip args) st.env with
          | (st1, .ok newEnv) =>
            (st1, execCallBody fuel { env := newEnv, functions := st1.functions } body)
          | (st1, .fail f) => (st1, .fail f)
      | none => (st, .fail (.rtErr ("Undefined function: " ++ name)))
termination_by structural fuel

/-- The argument-evaluation loop in eval_expr's Call arm: each argument is
evaluated with the caller interpreter (self), and its value is inserted into
the callee-environment accumulator new_env (initially a clone of the caller
environment). -/
def evalArgs (fuel : Nat) (st : State) (pairs : List (String × Expr))
    (acc : List (String × Int)) : State × EvalResult (List (String × Int)) :=
  match fuel with
  | 0 => (st, .fail .fuelOut)
  | fuel + 1 =>
    match pairs with
    | [] => (st, .ok acc)
    | (param, arg) :: rest =>
      match evalExpr fuel st arg with
      | (st1, .ok v) => evalArgs fuel st1 rest (hmInsert acc param v)
      | (st1, .fail f) => (st1, .fail f)
termination_by structural fuel

/-- The body loop in eval_expr's Call arm:
for stmt in body: if let Ok(Some(result)) = new_interpreter.eval_stmt(stmt)
then return Ok(result); afterwards Ok(0).
The if-let matches only Ok(Some(..)): an Ok(None) *and also an Err* fall
through and the loop continues with the next statement, so a RuntimeError
raised by a body statement is silently discarded here.  A Rust panic unwinds
unconditionally; fuelOut propagates (model artifact). -/
def execCallBody (fuel : Nat) (st : State) (body : List Stmt) : EvalResult Int :=
  match fuel with
  | 0 => .fail .fuelOut
  | fuel + 1 =>
    match body with
    | [] => .ok 0
    | stmt :: rest =>
      match evalStmt fuel st stmt with
      | (_, .ok (some result)) => .ok result
      | (st1, .ok none) => execCallBody fuel st1 rest
      | (st1, .fail (.rtErr _)) => execCallBody fuel st1 rest
      | (_, .fail (.panicked m)) => .fail (.panicked m)
      | (_, .fail .fuelOut) => .fail .fuelOut
termination_by structural fuel

/-- The statement loops written inline in Interpreter::interpret and in
eval_stmt's If/While/DoWhile/For arms:
for stmt in block: self.eval_stmt(stmt)?;
The ? propagates an Err, while an Ok(Some(..)) return value is discarded. -/
def execBlock (fuel : Nat) (st : State) (stmts : List Stmt) : State × EvalResult Unit :=
  match fuel with
  | 0 => (st, .fail .fuelOut)
  | fuel + 1 =>
    match stmts with
    | [] => (st, .ok ())
    | stmt :: rest =>
      match evalStmt fuel st stmt with
      | (st1, .ok _) => execBlock fuel st1 rest
      | (st1, .fail f) => (st1, .fail f)
termination_by structural fuel

/-- The while loop inside eval_stmt's For arm, entered after start has been
evaluated once and bound: while cond evaluates nonzero, run the body, then
rebind the loop variable to a fresh evaluation of step. -/
def forLoop (fuel : Nat) (st : State) (var : String) (cond step : Expr)
    (body : List Stmt) : State × EvalResult (Option Int) :=
  match fuel with
  | 0 => (st, .fail .fuelOut)
  | fuel + 1 =>
    match evalExpr fuel st cond with
    | (st1, .ok c) =>
      if c ≠ 0 then
        match execBlock fuel st1 body with
        | (st2, .ok _) =>
          match evalExpr fuel st2 step with
          | (st3, .ok v) =>
            forLoop fuel { st3 with env := hmInsert st3.env var v } var cond step body
          | (st3, .fail f) => (st3, .fail f)
        | (st2, .fail f) => (st2, .fail f)
      else (st1, .ok none)
    | (st1, .fail f) => (st1, .fail f)
termination_by structural fuel

/-- Interpreter::eval_stmt (src/interpreter.rs, lines 25-89).  Only the
Return arm produces Some; every other arm ends in Ok(None), so in particular
a Some produced inside a nested If/While/DoWhile/For block is discarded by
the inline ?-loop (execBlock) and never escapes the enclosing statement. -/
def evalStmt (fuel : Nat) (st : State) (s : Stmt) : State × EvalResult (Option Int) :=
  match fuel with
  | 0 => (st, .fail .fuelOut)
  | fuel + 1 =>
    match s with
    | .Let name e =>
      match evalExpr fuel st e with
      | (st1, .ok v) => ({ st1 with env := hmInsert st1.env name v }, .ok none)
      | (st1, .fail f) => (st1, .fail f)
    | .Assign name e =>
      match evalExpr fuel st e with
      | (st1, .ok v) =>
        if hmContains st1.env name then
          ({ st1 with env := hmInsert st1.env name v }, .ok none)
        else
          (st1, .fail (.rtErr ("Undefined variable: " ++ name)))
      | (st1, .fail f) => (st1, .fail f)
    | .If cond tb eb =>
      match evalExpr fuel st cond with
      | (st1, .ok c) =>
        if c ≠ 0 then
          match execBlock fuel st1 tb with
          | (st2, .ok _) => (st2, .ok none)
          | (st2, .fail f) => (st2, .fail f)
        else
          match execBlock fuel st1 eb with
          | (st2, .ok _) => (st2, .ok none)
          | (st2, .fail f) => (st2, .fail f)
      | (st1, .fail f) => (st1, .fail f)
    | .While cond body =>
      match evalExpr fuel st cond with
      | (st1, .ok c) =>
        if c ≠ 0 then
          match execBlock fuel st1 body with
          | (st2, .ok _) => evalStmt fuel st2 (.While cond body)
          | (st2, .fail f) => (st2, .fail f)
        else (st1, .ok none)
      | (st1, .fail f) => (st1, .fail f)
    | .DoWhile body cond =>
      match execBlock fuel st body with
      | (st1, .ok _) =>
        match evalExpr fuel st1 cond with
        | (st2, .ok c) =>
          if c = 0 then (st2, .ok none)
          else evalStmt fuel st2 (.DoWhile body cond)
        | (st2, .fail f) => (st2, .fail f)
      | (st1, .fail f) => (st1, .fail f)
    | .For var start cond step body =>
      match evalExpr fuel st start with
      | (st1, .ok i) =>
        forLoop fuel { st1 with env := hmInsert st1.env var i } var cond step body
      | (st1, .fail f) => (st1, .fail f)
    | .FnDecl name params body =>
      ({ st with functions := hmInsert st.functions name (params, body) }, .ok none)
    | .Return e =>
      match evalExpr fuel st e with
      | (st1, .ok v) => (st1, .ok (some v))
      | (st1, .fail f) => (st1, .fail f)
    | .Expr e =>
      match evalExpr fuel st e with
      | (st1, .ok _) => (st1, .ok none)
      | (st1, .fail f) => (st1, .fail f)
termination_by structural fuel

end

/-- Interpreter::interpret (src/interpreter.rs, lines 18-23): runs the
program's statements in order with ?, which is exactly the execBlock loop. -/
def interpret (fuel : Nat) (st : State) (program : List Stmt) :
    State × EvalResult Unit :=
  execBlock fuel st program

/-- src/lexer.rs: Token. -/
inductive Token where
  | Let
  | Fn
  | If
  | Else
  | While
  | Do
  | For
  | Return
  | True
  | False
  | Ident : String → Token
  | Number : Int → Token
  | Plus
  | Minus
  | Star
  | Slash
  | Equal
  | Eq
  | Neq
  | Gt
  | Lt
  | LParen
  | RParen
  | LBrace
  | RBrace
  | Semicolon
  | Comma
  | Colon
deriving Repr, DecidableEq

/-- Rust Debug formatting of a Token, as used in the parser's error
messages. -/
def Token.debugFmt : Token → String
  | .Let => "Let"
  | .Fn => "Fn"
  | .If => "If"
  | .Else => "Else"
  | .While => "While"
  | .Do => "Do"
  | .For => "For"
  | .Return => "Return"
  | .True => "True"
  | .False => "False"
  | .Ident s => "Ident(\"" ++ s ++ "\")"
  | .Number n => "Number(" ++ toString n ++ ")"
  | .Plus => "Plus"
  | .Minus => "Minus"
  | .Star => "Star"
  | .Slash => "Slash"
  | .Equal => "Equal"
  | .Eq => "Eq"
  | .Neq => "Neq"
  | .Gt => "Gt"
  | .Lt => "Lt"
  | .LParen => "LParen"
  | .RParen => "RParen"
  | .LBrace => "LBrace"
  | .RBrace => "RBrace"
  | .Semicolon => "Semicolon"
  | .Comma => "Comma"
  | .Colon => "Colon"

/-- Rust Debug formatting of Option of Token (self.peek() in messages). -/
def optTokenFmt : Option Token → String
  | none => "None"
  | some t => "Some(" ++ t.debugFmt ++ ")"

/-- Outcome of a parser or type-checker step: Ok value,
Err CompilerError, or exhausted recursion budget (model artifact, always
propagated). -/
inductive CResult (α : Type) where
  | ok : α → CResult α
  | err : CompilerError → CResult α
  | fuelOut : CResult α
deriving Repr

/-- Rust's ? on Result, extended to propagate fuelOut. -/
def CResult.bind {α β : Type} : CResult α → (α → CResult β) → CResult β
  | .ok a, f => f a
  | .err e, _ => .err e
  | .fuelOut, _ => .fuelOut

instance : Monad CResult where
  pure := .ok
  bind := CResult.bind

/-- src/parser.rs: the two fields of struct Parser. -/
structure PState where
  tokens : List Token
  pos : Nat
deriving Repr, DecidableEq

/-- Parser::peek. -/
def PState.peek (st : PState) : Option Token := st.tokens[st.pos]?

/-- Parser::advance. -/
def PState.advance (st : PState) : PState := { st with pos := st.pos + 1 }

/-- Parser::expect: consume the expected token or fail with the
expected-vs-found SyntaxError. -/
def PState.expect (st : PState) (expected : Token) : CResult PState :=
  if st.peek = some expected then .ok st.advance
  else .err (.SyntaxError
    ("Expected " ++ expected.debugFmt ++ ", found " ++ optTokenFmt st.peek))

mutual

/-- Parser::parse_program: statements until the tokens are exhausted. -/
def parseProgram (fuel : Nat) (st : PState) : CResult (List Stmt × PState) :=
  match fuel with
  | 0 => .fuelOut
  | fuel + 1 =>
    match st.peek with
    | some _ => do
      let (s, st1) ← parseStmt fuel st
      let (rest, st2) ← parseProgram fuel st1
      pure (s :: rest, st2)
    | none => pure ([], st)
termination_by structural fuel

/-- Parser::parse_stmt: dispatch on the leading token.  A leading bare
identifier is resolved by the single next token: Equal means Assign,
anything else makes the identifier itself a complete Variable
expression-statement whose next token must be a semicolon. -/
def parseStmt (fuel : Nat) (st : PState) : CResult (Stmt × PState) :=
  match fuel with
  | 0 => .fuelOut
  | fuel + 1 =>
    match st.peek with
    | some .Let => parseLet fuel st
    | some .If => parseIf fuel st
    | some .While => parseWhile fuel st
    | some .Do => parseDoWhile fuel st
    | some .For => parseFor fuel st
    | some .Fn => parseFnDecl fuel st
    | some .Return => parseReturn fuel st
    | some (.Ident name) =>
      let st1 := st.advance
      if st1.peek = some Token.Equal then do
        let (e, st2) ← parseExpr fuel st1.advance
        let st3 ← st2.expect .Semicolon
        pure (.Assign name e, st3)
      else do
        let st2 ← st1.expect .Semicolon
        pure (.Expr (.Variable name), st2)
    | _ => do
      let (e, st1) ← parseExpr fuel st
      let st2 ← st1.expect .Semicolon
      pure (.Expr e, st2)
termination_by structural fuel

/-- Parser::parse_let. -/
def parseLet (fuel : Nat) (st : PState) : CResult (Stmt × PState) :=
  match fuel with
  | 0 => .fuelOut
  | fuel + 1 => do
    let st1 ← st.expect .Let
    match st1.peek with
    | some (.Ident name) => do
      let st2 ← st1.advance.expect .Equal
      let (e, st3) ← parseExpr fuel st2
      let st4 ← st3.expect .Semicolon
      pure (.Let name e, st4)
    | _ => .err (.SyntaxError "Expected identifier after let")

/-- Parser::parse_if. -/
def parseIf (fuel : Nat) (st : PState) : CResult (Stmt × PState) :=
  match fuel with
  | 0 => .fuelOut
  | fuel + 1 => do
    let st1 ← st.expect .If
    let st2 ← st1.expect .LParen
    let (cond, st3) ← parseExpr fuel st2
    let st4 ← st3.expect .RParen
    let (tb, st5) ← parseBlock fuel st4
    match st5.peek with
    | some .Else => do
      let (eb, st6) ← parseBlock fuel st5.advance
      pure (.If cond tb eb, st6)
    | _ => pure (.If cond tb [], st5)
termination_by structural fuel

/-- Parser::parse_while. -/
def parseWhile (fuel : Nat) (st : PState) : CResult (Stmt × PState) :=
  match fuel with
  | 0 => .fuelOut
  | fuel + 1 => do
    let st1 ← st.expect .While
    let st2 ← st1.expect .LParen
    let (cond, st3) ← parseExpr fuel st2
    let st4 ← st3.expect .RParen
    let (body, st5) ← parseBlock fuel st4
    pure (.While cond body, st5)
termination_by structural fuel

/-- Parser::parse_do_while. -/
def parseDoWhile (fuel : Nat) (st : PState) : CResult (Stmt × PState) :=
  match fuel with
  | 0 => .fuelOut
  | fuel + 1 => do
    let st1 ← st.expect .Do
    let (body, st2) ← parseBlock fuel st1
    let st3 ← st2.expect .While
    let st4 ← st3.expect .LParen
    let (cond, st5) ← parseExpr fuel st4
    let st6 ← st5.expect .RParen
    let st7 ← st6.expect .Semicolon
    pure (.DoWhile body cond, st7)
termination_by structural fuel

/-- Parser::parse_for. -/
def parseFor (fuel : Nat) (st : PState) : CResult (Stmt × PState) :=
  match fuel with
  | 0 => .fuelOut
  | fuel + 1 => do
    let st1 ← st.expect .For
    let st2 ← st1.expect .LParen
    match st2.peek with
    | some (.Ident var) => do
      let st3 ← st2.advance.expect .Equal
      let (start, st4) ← parseExpr fuel st3
      let st5 ← st4.expect .Semicolon
      let (cond, st6) ← parseExpr fuel st5
      let st7 ← st6.expect .Semicolon
      let (step, st8) ← parseExpr fuel st7
      let st9 ← st8.expect .RParen
      let (body, st10) ← parseBlock fuel st9
      pure (.For var start cond step body, st10)
    | _ => .err (.SyntaxError "Expected identifier in for loop")
termination_by structural fuel

/-- Parser::parse_fn_decl. -/
def parseFnDecl (fuel : Nat) (st : PState) : CResult (Stmt × PState) :=
  match fuel with
  | 0 => .fuelOut
  | fuel + 1 => do
    let st1 ← st.expect .Fn
    match st1.peek with
    | some (.Ident name) => do
      let st2 ← st1.advance.expect .LParen
      let (params, st3) ←
        if st2.peek ≠ some Token.RParen then paramLoop fuel st2
        else pure ([], st2)
      let st4 ← st3.expect .RParen
      let (body, st5) ← parseBlock fuel st4
      pure (.FnDecl name params body, st5)
    | _ => .err (.SyntaxError "Expected function name")
termination_by structural fuel

/-- The parameter-list loop inside parse_fn_decl. -/
def paramLoop (fuel : Nat) (st : PState) : CResult (List String × PState) :=
  match fuel with
  | 0 => .fuelOut
  | fuel + 1 =>
    match st.peek with
    | some (.Ident param) =>
      let st1 := st.advance
      if st1.peek = some Token.Comma then do
        let (rest, st2) ← paramLoop fuel st1.advance
        pure (param :: rest, st2)
      else pure ([param], st1)
    | _ => .err (.SyntaxError "Expected parameter name")
termination_by structural fuel

/-- Parser::parse_return. -/
def parseReturn (fuel : Nat) (st : PState) : CResult (Stmt × PState) :=
  match fuel with
  | 0 => .fuelOut
  | fuel + 1 => do
    let st1 ← st.expect .Return
    let (e, st2) ← parseExpr fuel st1
    let st3 ← st2.expect .Semicolon
    pure (.Return e, st3)

/-- Parser::parse_block: braces mandatory, statements until RBrace. -/
def parseBlock (fuel : Nat) (st : PState) : CResult (List Stmt × PState) :=
  match fuel with
  | 0 => .fuelOut
  | fuel + 1 => do
    let st1 ← st.expect .LBrace
    let (stmts, st2) ← blockStmts fuel st1
    let st3 ← st2.expect .RBrace
    pure (stmts, st3)
termination_by structural fuel

/-- The statement loop inside parse_block (runs while the next token is not
RBrace, including at end of input). -/
def blockStmts (fuel : Nat) (st : PState) : CResult (List Stmt × PState) :=
  match fuel with
  | 0 => .fuelOut
  | fuel + 1 =>
    if st.peek ≠ some Token.RBrace then do
      let (s, st1) ← parseStmt fuel st
      let (rest, st2) ← blockStmts fuel st1
      pure (s :: rest, st2)
    else pure ([], st)
termination_by structural fuel

/-- Parser::parse_expr: delegates to equality, the lowest tier. -/
def parseExpr (fuel : Nat) (st : PState) : CResult (Expr × PState) :=
  match fuel with
  | 0 => .fuelOut
  | fuel + 1 => parseEquality fuel st
termination_by structural fuel

/-- Parser::parse_equality. -/
def parseEquality (fuel : Nat) (st : PState) : CResult (Expr × PState) :=
  match fuel with
  | 0 => .fuelOut
  | fuel + 1 => do
    let (e, st1) ← parseComparison fuel st
    equalityLoop fuel e st1
termination_by structural fuel

/-- The left-associative operator loop of parse_equality. -/
def equalityLoop (fuel : Nat) (e : Expr) (st : PState) : CResult (Expr × PState) :=
  match fuel with
  | 0 => .fuelOut
  | fuel + 1 =>
    match st.peek with
    | some Token.Eq => do
      let (right, st1) ← parseComparison fuel st.advance
      equalityLoop fuel (.Binary e .Eq right) st1
    | some Token.Neq => do
      let (right, st1) ← parseComparison fuel st.advance
      equalityLoop fuel (.Binary e .Neq right) st1
    | _ => pure (e, st)
termination_by structural fuel

/-- Parser::parse_comparison. -/
def parseComparison (fuel : Nat) (st : PState) : CResult (Expr × PState) :=
  match fuel with
  | 0 => .fuelOut
  | fuel + 1 => do
    let (e, st1) ← parseTerm fuel st
    comparisonLoop fuel e st1
termination_by structural fuel

/-- The left-associative operator loop of parse_comparison. -/
def comparisonLoop (fuel : Nat) (e : Expr) (st : PState) : CResult (Expr × PState) :=
  match fuel with
  | 0 => .fuelOut
  | fuel + 1 =>
    match st.peek with
    | some Token.Gt => do
      let (right, st1) ← parseTerm fuel st.advance
      comparisonLoop fuel (.Binary e .Gt right) st1
    | some Token.Lt => do
      let (right, st1) ← parseTerm fuel st.advance
      comparisonLoop fuel (.Binary e .Lt right) st1
    | _ => pure (e, st)
termination_by structural fuel

/-- Parser::parse_term. -/
def parseTerm (fuel : Nat) (st : PState) : CResult (Expr × PState) :=
  match fuel with
  | 0 => .fuelOut
  | fuel + 1 => do
    let (e, st1) ← parseFactor fuel st
    termLoop fuel e st1
termination_by structural fuel

/-- The left-associative operator loop of parse_term. -/
def termLoop (fuel : Nat) (e : Expr) (st : PState) : CResult (Expr × PState) :=
  match fuel with
  | 0 => .fuelOut
  | fuel + 1 =>
    match st.peek with
    | some Token.Plus => do
      let (right, st1) ← parseFactor fuel st.advance
      termLoop fuel (.Binary e .Add right) st1
    | some Token.Minus => do
      let (right, st1) ← parseFactor fuel st.advance
      termLoop fuel (.Binary e .Sub right) st1
    | _ => pure (e, st)
termination_by structural fuel

/-- Parser::parse_factor. -/
def parseFactor (fuel : Nat) (st : PState) : CResult (Expr × PState) :=
  match fuel with
  | 0 => .fuelOut
  | fuel + 1 => do
    let (e, st1) ← parseUnary fuel st
    factorLoop fuel e st1
termination_by structural fuel

/-- The left-associative operator loop of parse_factor. -/
def factorLoop (fuel : Nat) (e : Expr) (st : PState) : CResult (Expr × PState) :=
  match fuel with
  | 0 => .fuelOut
  | fuel + 1 =>
    match st.peek with
    | some Token.Star => do
      let (right, st1) ← parseUnary fuel st.advance
      factorLoop fuel (.Binary e .Mul right) st1
    | some Token.Slash => do
      let (right, st1) ← parseUnary fuel st.advance
      factorLoop fuel (.Binary e .Div right) st1
    | _ => pure (e, st)
termination_by structural fuel

/-- Parser::parse_unary: prefix minus desugars to 0 - operand. -/
def parseUnary (fuel : Nat) (st : PState) : CResult (Expr × PState) :=
  match fuel with
  | 0 => .fuelOut
  | fuel + 1 =>
    match st.peek with
    | some Token.Minus => do
      let (e, st1) ← parsePrimary fuel st.advance
      pure (.Binary (.Number 0) .Sub e, st1)
    | _ => parsePrimary fuel st
termination_by structural fuel

/-- Parser::parse_primary: literal, true, false, identifier (call when
immediately followed by LParen), or parenthesized expression. -/
def parsePrimary (fuel : Nat) (st : PState) : CResult (Expr × PState) :=
  match fuel with
  | 0 => .fuelOut
  | fuel + 1 =>
    match st.peek with
    | some (.Number n) => pure (.Number n, st.advance)
    | some .True => pure (.Bool true, st.advance)
    | some .False => pure (.Bool false, st.advance)
    | some (.Ident name) =>
      let st1 := st.advance
      if st1.peek = some Token.LParen then do
        let st2 := st1.advance
        let (args, st3) ←
          if st2.peek ≠ some Token.RParen then argLoop fuel st2
          else pure ([], st2)
        let st4 ← st3.expect .RParen
        pure (.Call name args, st4)
      else pure (.Variable name, st1)
    | some .LParen => do
      let (e, st1) ← parseExpr fuel st.advance
      let st2 ← st1.expect .RParen
      pure (e, st2)
    | other => .err (.SyntaxError
        ("Unexpected token " ++ optTokenFmt other ++ " in expression"))
termination_by structural fuel

/-- The argument-list loop inside parse_primary's call branch. -/
def argLoop (fuel : Nat) (st : PState) : CResult (List Expr × PState) :=
  match fuel with
  | 0 => .fuelOut
  | fuel + 1 => do
    let (a, st1) ← parseExpr fuel st
    if st1.peek = some Token.Comma then do
      let (rest, st2) ← argLoop fuel st1.advance
      pure (a :: rest, st2)
    else pure ([a], st1)
termination_by structural fuel

end

/-- src/type_checker.rs: Type (named Ty here, since Type is a Lean
builtin). -/
inductive Ty where
  | Int
  | Bool
  | Void
deriving Repr, DecidableEq

/-- src/type_checker.rs: the two fields of struct TypeChecker — the flat
name-to-type environment and the flat function-signature table. -/
structure TCState where
  env : List (String × Ty)
  functions : List (String × (List Ty × Ty))
deriving Repr, DecidableEq

/-- The empty state that TypeChecker::new() constructs. -/
def TCState.new : TCState := { env := [], functions := [] }

/-- The parameter-insertion loop in check_stmt's FnDecl arm: every parameter
is registered in the flat variable-type environment as Int. -/
def insertParams : TCState → List String → TCState
  | tc, [] => tc
  | tc, p :: rest => insertParams { tc with env := hmInsert tc.env p Ty.Int } rest

mutual

/-- TypeChecker::check_expr (src/type_checker.rs, lines 101-143).
check_expr takes &mut self but never mutates it, so it is modelled as a pure
reader of the checker state. -/
def checkExpr (fuel : Nat) (tc : TCState) (e : Expr) : CResult Ty :=
  match fuel with
  | 0 => .fuelOut
  | fuel + 1 =>
    match e with
    | .Number _ => .ok .Int
    | .Bool _ => .ok .Bool
    | .Variable name =>
      match hmLookup tc.env name with
      | some t => .ok t
      | none => .err (.TypeError ("Undeclared variable: " ++ name))
    | .Binary lhs op rhs => do
      let lt ← checkExpr fuel tc lhs
      let rt ← checkExpr fuel tc rhs
      match op with
      | .Add | .Sub | .Mul | .Div =>
        if lt = Ty.Int && rt = Ty.Int then .ok .Int
        else .err (.TypeError "Operands must be integers")
      | .Eq | .Neq | .Gt | .Lt =>
        if lt = rt then .ok .Bool
        else .err (.TypeError "Operands must be of the same type")
    | .Call name args =>
      match hmLookup tc.functions name with
      | some (paramTypes, returnType) =>
        if args.length ≠ paramTypes.length then
          .err (.TypeError ("Incorrect number of arguments in call to " ++ name))
        else do
          checkArgTypes fuel tc (args.zip paramTypes)
          pure returnType
      | none => .err (.TypeError ("Undefined function: " ++ name))
termination_by structural fuel

/-- The per-position argument check loop in check_expr's Call arm. -/
def checkArgTypes (fuel : Nat) (tc : TCState) (pairs : List (Expr × Ty)) :
    CResult Unit :=
  match fuel with
  | 0 => .fuelOut
  | fuel + 1 =>
    match pairs with
    | [] => .ok ()
    | (arg, expected) :: rest => do
      let argType ← checkExpr fuel tc arg
      if argType ≠ expected then .err (.TypeError "Argument type mismatch")
      else checkArgTypes fuel tc rest
termination_by structural fuel

/-- TypeChecker::check_stmt (src/type_checker.rs, lines 32-99).  Returns the
mutated checker state. -/
def checkStmt (fuel : Nat) (tc : TCState) (s : Stmt) : CResult TCState :=
  match fuel with
  | 0 => .fuelOut
  | fuel + 1 =>
    match s with
    | .Let name e => do
      let t ← checkExpr fuel tc e
      pure { tc with env := hmInsert tc.env name t }
    | .Assign name e => do
      let t ← checkExpr fuel tc e
      match hmLookup tc.env name with
      | some varType =>
        if varType ≠ t then
          .err (.TypeError ("Type mismatch in assignment to " ++ name))
        else pure tc
      | none => .err (.TypeError ("Undeclared variable: " ++ name))
    | .If cond tb eb => do
      let condType ← checkExpr fuel tc cond
      if condType ≠ Ty.Bool then
        .err (.TypeError "Condition in 'if' must be a boolean")
      else do
        let tc1 ← checkStmts fuel tc tb
        checkStmts fuel tc1 eb
    | .While cond body => do
      let condType ← checkExpr fuel tc cond
      if condType ≠ Ty.Bool then
        .err (.TypeError "Condition in loop must be a boolean")
      else checkStmts fuel tc body
    | .DoWhile body cond => do
      let condType ← checkExpr fuel tc cond
      if condType ≠ Ty.Bool then
        .err (.TypeError "Condition in loop must be a boolean")
      else checkStmts fuel tc body
    | .For var start cond step body => do
      let tStart ← checkExpr fuel tc start
      let tCond ← checkExpr fuel tc cond
      let tStep ← checkExpr fuel tc step
      if tStart ≠ Ty.Int || tCond ≠ Ty.Bool || tStep ≠ Ty.Int then
        .err (.TypeError "Invalid types in 'for' loop")
      else checkStmts fuel { tc with env := hmInsert tc.env var Ty.Int } body
    | .FnDecl name params body => do
      let paramTypes := params.map (fun _ => Ty.Int)
      let tc1 := { tc with functions := hmInsert tc.functions name (paramTypes, Ty.Int) }
      let tc2 := insertParams tc1 params
      checkStmts fuel tc2 body
    | .Return e => do
      let _ ← checkExpr fuel tc e
      pure tc
    | .Expr e => do
      let _ ← checkExpr fuel tc e
      pure tc
termination_by structural fuel

/-- The statement loop of TypeChecker::check_program and of the inline body
loops in check_stmt (first error aborts via ?). -/
def checkStmts (fuel : Nat) (tc : TCState) (stmts : List Stmt) : CResult TCState :=
  match fuel with
  | 0 => .fuelOut
  | fuel + 1 =>
    match stmts with
    | [] => .ok tc
    | s :: rest => do
      let tc1 ← checkStmt fuel tc s
      checkStmts fuel tc1 rest
termination_by structural fuel

end

/-- TypeChecker::check_program: checks the statements in order, first error
aborts; the final checker state is returned in place of Rust's Ok(()). -/
def checkProgram (fuel : Nat) (tc : TCState) (program : List Stmt) :
    CResult TCState :=
  checkStmts fuel tc program

/-! Concrete programs and token sequences used by the behavioural theorems
below.  Each is the AST (respectively token sequence) of the source program
named in its comment. -/

/-- fn f() { if (1) { return 42; } return 7; } let r = f(); -/
def progNestedReturn : List Stmt :=
  [.FnDecl "f" [] [.If (.Number 1) [.Return (.Number 42)] [], .Return (.Number 7)],
   .Let "r" (.Call "f" [])]

/-- fn f() { z; return 5; } let r = f();  (z is never defined) -/
def progSwallowedErr : List Stmt :=
  [.FnDecl "f" [] [.Expr (.Variable "z"), .Return (.Number 5)],
   .Let "r" (.Call "f" [])]

/-- fn f(a) { return 0; } f();  (arity mismatch: one parameter, no argument) -/
def progArityMismatch : List Stmt :=
  [.FnDecl "f" ["a"] [.Return (.Number 0)],
   .Expr (.Call "f" [])]

/-- let x = 10; fn f(x) { x = x + 1; return x; } let y = f(x); -/
def progCallIsolation : List Stmt :=
  [.Let "x" (.Number 10),
   .FnDecl "f" ["x"] [.Assign "x" (.Binary (.Variable "x") .Add (.Number 1)),
                      .Return (.Variable "x")],
   .Let "y" (.Call "f" [.Variable "x"])]

/-- Token sequence of 10 - 3 - 2. -/
def toksSubChain : List Token := [.Number 10, .Minus, .Number 3, .Minus, .Number 2]

/-- Token sequence of 2 + 3 * 4. -/
def toksAddMul : List Token := [.Number 2, .Plus, .Number 3, .Star, .Number 4]

/-- Token sequence of 1 == 2 < 3 + 4 * -5, exercising every precedence tier
from equality down to unary minus. -/
def toksAllTiers : List Token :=
  [.Number 1, .Eq, .Number 2, .Lt, .Number 3, .Plus, .Number 4, .Star,
   .Minus, .Number 5]

/-- Token sequence of x + 1; (a statement-leading identifier followed by a
token that is neither Equal nor Semicolon). -/
def toksIdentPlus : List Token := [.Ident "x", .Plus, .Number 1, .Semicolon]

/-- The condition i < 5 of the canonical for loop. -/
def forCond : Expr := .Binary (.Variable "i") .Lt (.Number 5)

/-- The step i + 1 of the canonical for loop. -/
def forStep : Expr := .Binary (.Variable "i") .Add (.Number 1)

/-- for (i = 0; i < 5; i = i + 1) { } -/
def progForLeak : List Stmt := [.For "i" (.Number 0) forCond forStep []]

/-- fn f(p) { return p; } p;  (p referenced at top level after the decl) -/
def progParamLeak : List Stmt :=
  [.FnDecl "f" ["p"] [.Return (.Variable "p")],
   .Expr (.Variable "p")]

/-- fn g(n) { return g(n); }  (recursive call inside the declared body) -/
def progRecFn : List Stmt := [.FnDecl "g" ["n"] [.Return (.Call "g" [.Variable "n"])]]

/-- if (5) { let a = 1; }  (integer condition, not a boolean) -/
def progIfFive : List Stmt := [.If (.Number 5) [.Let "a" (.Number 1)] []]

/-! Helper lemmas shared by the behavioural theorems. -/

/-- Unfolding of bind at an ok value (Rust's ? on an Ok). -/
@[simp] theorem CResult.bind_ok {α β : Type} (a : α) (f : α → CResult β) :
    (CResult.ok a >>= f) = f a := rfl

/-- Unfolding of bind at an Err (Rust's ? propagating). -/
@[simp] theorem CResult.bind_err {α β : Type} (e : CompilerError) (f : α → CResult β) :
    (CResult.err e >>= f) = CResult.err e := rfl

/-- Unfolding of bind at fuel exhaustion. -/
@[simp] theorem CResult.bind_fuelOut {α β : Type} (f : α → CResult β) :
    (CResult.fuelOut >>= f) = (CResult.fuelOut : CResult β) := rfl

/-- pure on CResult is ok. -/
@[simp] theorem CResult.pure_eq {α : Type} (a : α) :
    (pure a : CResult α) = CResult.ok a := rfl

/-- eval_expr takes &mut self but never writes to it, and the argument loop
of a call only writes to the separate new_env accumulator: evaluating any
expression leaves the interpreter state exactly as it was. -/
theorem eval_state_fixed (fuel : Nat) :
    (∀ st e, (evalExpr fuel st e).1 = st)
    ∧ ∀ st pairs acc, (evalArgs fuel st pairs acc).1 = st := by
  induction fuel with
  | zero => exact ⟨fun _ _ => rfl, fun _ _ _ => rfl⟩
  | succ fuel ih =>
    obtain ⟨ihE, ihA⟩ := ih
    constructor
    · intro st e
      match e with
      | .Number n => rfl
      | .Bool b => rfl
      | .Variable name =>
        simp only [evalExpr]
        split <;> rfl
      | .Binary lhs op rhs =>
        simp only [evalExpr]
        split
        next st1 l heq =>
          have h1 : st1 = st := by
            have h := ihE st lhs
            rw [heq] at h
            exact h
          split
          next st2 r heq2 =>
            have h2 : st2 = st1 := by
              have h := ihE st1 rhs
              rw [heq2] at h
              exact h
            exact h2.trans h1
          next st2 f heq2 =>
            have h2 : st2 = st1 := by
              have h := ihE st1 rhs
              rw [heq2] at h
              exact h
            exact h2.trans h1
        next st1 f heq =>
          have h1 : st1 = st := by
            have h := ihE st lhs
            rw [heq] at h
            exact h
          exact h1
      | .Call name args =>
        simp only [evalExpr]
        split
        next params body heq =>
          split
          · rfl
          · split
            next st1 newEnv heq2 =>
              have h1 : st1 = st := by
                have h := ihA st (params.zip args) st.env
                rw [heq2] at h
                exact h
              exact h1
            next st1 f heq2 =>
              have h1 : st1 = st := by
                have h := ihA st (params.zip args) st.env
                rw [heq2] at h
                exact h
              exact h1
        next heq => rfl
    · intro st pairs acc
      match pairs with
      | [] => rfl
      | (param, arg) :: rest =>
        simp only [evalArgs]
        split
        next st1 v heq =>
          have h1 : st1 = st := by
            have h := ihE st arg
            rw [heq] at h
            exact h
          exact (ihA st1 rest (hmInsert acc param v)).trans h1
        next st1 f heq =>
          have h1 : st1 = st := by
            have h := ihE st arg
            rw [heq] at h
            exact h
          exact h1

/-- Specialisation: evaluating any expression preserves the interpreter
state (environment and function table). -/
theorem evalExpr_preserves_state (fuel : Nat) (st : State) (e : Expr) :
    (evalExpr fuel st e).1 = st :=
  (eval_state_fixed fuel).1 st e

/-- C1: the claim that division by zero surfaces as a RuntimeError is false
on the code: eval_expr's Div arm is Rust's unguarded i64 division l / r,
which on the divisor 0 panics ("attempt to divide by zero") and aborts the
process; no CompilerError::RuntimeError is produced. -/
theorem div_by_zero_panics_not_runtime_error :
    (evalExpr 2 State.new (.Binary (.Number 1) .Div (.Number 0))).2
      = .fail (.panicked "attempt to divide by zero")
    ∧ ¬ ∃ msg, (evalExpr 2 State.new (.Binary (.Number 1) .Div (.Number 0))).2
      = .fail (.rtErr msg) := by
  refine ⟨rfl, ?_⟩
  rintro ⟨msg, h⟩
  rw [show (evalExpr 2 State.new (.Binary (.Number 1) .Div (.Number 0))).2
      = EvalResult.fail (.panicked "attempt to divide by zero") from rfl] at h
  simp at h

/-- C2: the claim that a Return nested inside an if branch propagates to
become the call's result is false on the code: running
fn f() { if (1) { return 42; } return 7; } let r = f(); succeeds and leaves
r = 7, because eval_stmt's If arm discards the Some(42) produced inside the
then-block and the call loop only sees the top-level Return 7. -/
theorem nested_return_discarded :
    (interpret 20 State.new progNestedReturn).2 = .ok ()
    ∧ hmLookup (interpret 20 State.new progNestedReturn).1.env "r" = some 7 :=
  ⟨rfl, rfl⟩

/-- C3: the claim that the first RuntimeError raised inside a called body
aborts the execution phase is false on the code: running
fn f() { z; return 5; } let r = f(); (z undefined) succeeds with r = 5,
because the call loop's if-let Ok(Some(..)) pattern silently drops the Err
from the statement z; and continues with the next statement. -/
theorem callee_error_swallowed :
    (interpret 20 State.new progSwallowedErr).2 = .ok ()
    ∧ hmLookup (interpret 20 State.new progSwallowedErr).1.env "r" = some 5 :=
  ⟨rfl, rfl⟩

/-- C4 counterexample: calling f (declared with one parameter) with no
arguments raises RuntimeError "Incorrect argument count", a fixed message
that does not carry the offending name f — the letter f does not even occur
in it — refuting the claim that all four runtime faults carry the name. -/
theorem arity_error_lacks_name :
    (interpret 20 State.new progArityMismatch).2
      = .fail (.rtErr "Incorrect argument count")
    ∧ 'f' ∉ "Incorrect argument count".toList :=
  ⟨rfl, by decide⟩

/-- C4 (amended): undefined-variable reference, assignment to an undeclared
name, and call to an undeclared function each raise a RuntimeError whose
message carries the offending name; an argument-count mismatch raises a
RuntimeError with the fixed message "Incorrect argument count" that does
not name the function. -/
theorem runtime_fault_messages (fuel : Nat) (stV stA stA1 stF stG : State)
    (nameV nameA nameF nameG : String) (eA : Expr) (v : Int)
    (args : List Expr) (params : List String) (body : List Stmt)
    (h1 : hmLookup stV.env nameV = none)
    (h2 : evalExpr fuel stA eA = (stA1, .ok v))
    (h3 : hmLookup stA1.env nameA = none)
    (h4 : hmLookup stF.functions nameF = none)
    (h5 : hmLookup stG.functions nameG = some (params, body))
    (h6 : args.length ≠ params.length) :
    evalExpr (fuel + 1) stV (.Variable nameV)
      = (stV, .fail (.rtErr ("Undefined variable: " ++ nameV)))
    ∧ evalStmt (fuel + 1) stA (.Assign nameA eA)
      = (stA1, .fail (.rtErr ("Undefined variable: " ++ nameA)))
    ∧ evalExpr (fuel + 1) stF (.Call nameF args)
      = (stF, .fail (.rtErr ("Undefined function: " ++ nameF)))
    ∧ evalExpr (fuel + 1) stG (.Call nameG args)
      = (stG, .fail (.rtErr "Incorrect argument count")) := by
  refine ⟨?_, ?_, ?_, ?_⟩
  · simp [evalExpr, h1]
  · simp [evalStmt, h2, hmContains, h3]
  · simp [evalExpr, h4]
  · simp [evalExpr, h5, h6]

/-- Witness for the amended C4 theorem at concrete inputs. -/
theorem runtime_fault_messages_witness :
    evalExpr 2 State.new (.Variable "x")
      = (State.new, .fail (.rtErr "Undefined variable: x"))
    ∧ evalStmt 2 State.new (.Assign "x" (.Number 3))
      = (State.new, .fail (.rtErr "Undefined variable: x"))
    ∧ evalExpr 2 State.new (.Call "h" [])
      = (State.new, .fail (.rtErr "Undefined function: h"))
    ∧ evalExpr 2 { env := [], functions := [("g", (["p"], []))] } (.Call "g" [])
      = ({ env := [], functions := [("g", (["p"], []))] },
         .fail (.rtErr "Incorrect argument count")) :=
  runtime_fault_messages 1 State.new State.new State.new State.new
    { env := [], functions := [("g", (["p"], []))] }
    "x" "x" "h" "g" (.Number 3) 3 [] ["p"] []
    rfl rfl rfl rfl rfl (by decide)

/-- C5: evaluating a function call (indeed, any expression) leaves the
caller's environment and function table exactly as they were — no callee
mutation is visible afterwards, only the returned value — and the canonical
program let x = 10; fn f(x) { x = x + 1; return x; } let y = f(x); ends
with y = 11 and x still 10. -/
theorem call_leaves_caller_state_unchanged (fuel : Nat) (st : State)
    (name : String) (args : List Expr) :
    (evalExpr fuel st (.Call name args)).1 = st
    ∧ (interpret 20 State.new progCallIsolation).2 = .ok ()
    ∧ hmLookup (interpret 20 State.new progCallIsolation).1.env "y" = some 11
    ∧ hmLookup (interpret 20 State.new progCallIsolation).1.env "x" = some 10 :=
  ⟨evalExpr_preserves_state fuel st _, rfl, rfl, rfl⟩

/-- C6: the parser is left-associative at each tier and respects the
precedence tiers: 10 - 3 - 2 parses as (10 - 3) - 2 and evaluates to 5;
2 + 3 * 4 parses as 2 + (3 * 4) and evaluates to 14; and
1 == 2 < 3 + 4 * -5 nests equality over comparison over addition over
multiplication over the unary-minus desugaring 0 - 5. -/
theorem parser_precedence_left_assoc :
    parseExpr 9 { tokens := toksSubChain, pos := 0 }
      = .ok (.Binary (.Binary (.Number 10) .Sub (.Number 3)) .Sub (.Number 2),
             { tokens := toksSubChain, pos := 5 })
    ∧ (evalExpr 9 State.new
        (.Binary (.Binary (.Number 10) .Sub (.Number 3)) .Sub (.Number 2))).2
      = .ok 5
    ∧ parseExpr 9 { tokens := toksAddMul, pos := 0 }
      = .ok (.Binary (.Number 2) .Add (.Binary (.Number 3) .Mul (.Number 4)),
             { tokens := toksAddMul, pos := 5 })
    ∧ (evalExpr 9 State.new
        (.Binary (.Number 2) .Add (.Binary (.Number 3) .Mul (.Number 4)))).2
      = .ok 14
    ∧ parseExpr 20 { tokens := toksAllTiers, pos := 0 }
      = .ok (.Binary (.Number 1) .Eq
              (.Binary (.Number 2) .Lt
                (.Binary (.Number 3) .Add
                  (.Binary (.Number 4) .Mul
                    (.Binary (.Number 0) .Sub (.Number 5))))),
             { tokens := toksAllTiers, pos := 10 }) :=
  ⟨rfl, rfl, rfl, rfl, rfl⟩

/-- C7: a For statement evaluates start exactly once and enters its loop
with the loop variable bound to that value; each iteration whose condition
evaluates nonzero runs the body and then rebinds the loop variable to a
fresh evaluation of step; a condition evaluating to 0 exits the loop
keeping the environment (the loop variable stays bound in the enclosing
environment); and after for (i = 0; i < 5; i = i + 1) { } the environment
maps i to 5. -/
theorem for_loop_semantics (fuel : Nat) (var : String) (start cond step : Expr)
    (body : List Stmt) (stA st1 : State) (i0 : Int)
    (stB stB1 stB2 stB3 : State) (c v : Int) (stC stC1 : State)
    (hstart : evalExpr fuel stA start = (st1, .ok i0))
    (hcond : evalExpr fuel stB cond = (stB1, .ok c)) (hc : c ≠ 0)
    (hbody : execBlock fuel stB1 body = (stB2, .ok ()))
    (hstep : evalExpr fuel stB2 step = (stB3, .ok v))
    (hexit : evalExpr fuel stC cond = (stC1, .ok 0)) :
    evalStmt (fuel + 1) stA (.For var start cond step body)
      = forLoop fuel { st1 with env := hmInsert st1.env var i0 } var cond step body
    ∧ forLoop (fuel + 1) stB var cond step body
      = forLoop fuel { stB3 with env := hmInsert stB3.env var v } var cond step body
    ∧ forLoop (fuel + 1) stC var cond step body = (stC, .ok none)
    ∧ (interpret 40 State.new progForLeak).2 = .ok ()
    ∧ hmLookup (interpret 40 State.new progForLeak).1.env "i" = some 5 := by
  refine ⟨?_, ?_, ?_, rfl, rfl⟩
  · simp [evalStmt, hstart]
  · simp [forLoop, hcond, hc, hbody, hstep]
  · have hC1 : stC1 = stC := by
      have h := evalExpr_preserves_state fuel stC cond
      rw [hexit] at h
      exact h
    simp [forLoop, hexit, hC1]

/-- Witness for the C7 theorem at the canonical loop's concrete states. -/
theorem for_loop_semantics_witness :
    evalStmt 10 State.new (.For "i" (.Number 0) forCond forStep [])
      = forLoop 9 { env := [("i", 0)], functions := [] } "i" forCond forStep []
    ∧ forLoop 10 { env := [("i", 0)], functions := [] } "i" forCond forStep []
      = forLoop 9 { env := [("i", 1), ("i", 0)], functions := [] } "i" forCond forStep []
    ∧ forLoop 10 { env := [("i", 5)], functions := [] } "i" forCond forStep []
      = ({ env := [("i", 5)], functions := [] }, .ok none)
    ∧ (interpret 40 State.new progForLeak).2 = .ok ()
    ∧ hmLookup (interpret 40 State.new progForLeak).1.env "i" = some 5 :=
  for_loop_semantics 9 "i" (.Number 0) forCond forStep []
    State.new State.new 0
    { env := [("i", 0)], functions := [] } { env := [("i", 0)], functions := [] }
    { env := [("i", 0)], functions := [] } { env := [("i", 0)], functions := [] }
    1 1
    { env := [("i", 5)], functions := [] } { env := [("i", 5)], functions := [] }
    rfl rfl (by decide) rfl rfl rfl

/-- C8: a statement beginning with a bare identifier is decided by the
single next token: Equal parses it as Assign(name, expr) ending in a
semicolon; otherwise the identifier alone is a complete Variable
expression-statement and the very next token must be a semicolon, so a
following semicolon succeeds and any other token fails with the
expected-vs-found SyntaxError — in particular x + 1; is rejected. -/
theorem stmt_leading_ident_dispatch (fuel : Nat)
    (tsA : List Token) (posA : Nat) (nA : String) (e : Expr) (stE : PState)
    (tsB : List Token) (posB : Nat) (nB : String)
    (tsC : List Token) (posC : Nat) (nC : String) (t : Token)
    (h1 : tsA[posA]? = some (.Ident nA))
    (h2 : tsA[posA + 1]? = some Token.Equal)
    (h3 : parseExpr fuel { tokens := tsA, pos := posA + 1 + 1 } = .ok (e, stE))
    (h4 : stE.peek = some Token.Semicolon)
    (g1 : tsB[posB]? = some (.Ident nB))
    (g2 : tsB[posB + 1]? = some Token.Semicolon)
    (k1 : tsC[posC]? = some (.Ident nC))
    (k2 : tsC[posC + 1]? = some t)
    (k3 : t ≠ Token.Equal) (k4 : t ≠ Token.Semicolon) :
    parseStmt (fuel + 1) { tokens := tsA, pos := posA }
      = .ok (.Assign nA e, stE.advance)
    ∧ parseStmt (fuel + 1) { tokens := tsB, pos := posB }
      = .ok (.Expr (.Variable nB), { tokens := tsB, pos := posB + 1 + 1 })
    ∧ parseStmt (fuel + 1) { tokens := tsC, pos := posC }
      = .err (.SyntaxError ("Expected " ++ Token.Semicolon.debugFmt ++ ", found "
          ++ optTokenFmt (some t)))
    ∧ parseStmt 9 { tokens := toksIdentPlus, pos := 0 }
      = .err (.SyntaxError "Expected Semicolon, found Some(Plus)") := by
  refine ⟨?_, ?_, ?_, rfl⟩
  · simp [parseStmt, PState.peek, PState.advance, PState.expect, h1, h2, h3,
      show stE.tokens[stE.pos]? = some Token.Semicolon from h4]
  · simp [parseStmt, PState.peek, PState.advance, PState.expect, g1, g2]
  · simp [parseStmt, PState.peek, PState.advance, PState.expect, k1, k2, k3, k4]

/-- Witness for the C8 theorem at concrete token sequences. -/
theorem stmt_leading_ident_dispatch_witness :
    parseStmt 9 { tokens := [Token.Ident "x", .Equal, .Number 3, .Semicolon], pos := 0 }
      = .ok (.Assign "x" (.Number 3),
             { tokens := [Token.Ident "x", .Equal, .Number 3, .Semicolon], pos := 4 })
    ∧ parseStmt 9 { tokens := [Token.Ident "x", .Semicolon], pos := 0 }
      = .ok (.Expr (.Variable "x"), { tokens := [Token.Ident "x", .Semicolon], pos := 2 })
    ∧ parseStmt 9 { tokens := toksIdentPlus, pos := 0 }
      = .err (.SyntaxError ("Expected " ++ Token.Semicolon.debugFmt ++ ", found "
          ++ optTokenFmt (some Token.Plus)))
    ∧ parseStmt 9 { tokens := toksIdentPlus, pos := 0 }
      = .err (.SyntaxError "Expected Semicolon, found Some(Plus)") :=
  stmt_leading_ident_dispatch 8
    [Token.Ident "x", .Equal, .Number 3, .Semicolon] 0 "x" (.Number 3)
    { tokens := [Token.Ident "x", .Equal, .Number 3, .Semicolon], pos := 3 }
    [Token.Ident "x", .Semicolon] 0 "x"
    toksIdentPlus 0 "x" Token.Plus
    rfl rfl rfl rfl rfl rfl rfl rfl (by decide) (by decide)

/-- C9: check_stmt on FnDecl records the function's all-Int signature before
checking the body — so the recursive fn g(n) { return g(n); } type-checks —
and inserts every parameter as Int into the single flat variable-type
environment, where it persists past the declaration: fn f(p) { return p; } p;
type-checks with p still bound, while the interpreter raises the
undefined-variable RuntimeError for that same top-level p. -/
theorem fndecl_typing_flat_env (fuel : Nat) (tc : TCState) (name : String)
    (params : List String) (body : List Stmt) :
    checkStmt (fuel + 1) tc (.FnDecl name params body)
      = checkStmts fuel
          (insertParams
            { tc with functions :=
                hmInsert tc.functions name (params.map (fun _ => Ty.Int), Ty.Int) }
            params)
          body
    ∧ checkProgram 9 TCState.new progRecFn
      = .ok { env := [("n", Ty.Int)], functions := [("g", ([Ty.Int], Ty.Int))] }
    ∧ checkProgram 9 TCState.new progParamLeak
      = .ok { env := [("p", Ty.Int)], functions := [("f", ([Ty.Int], Ty.Int))] }
    ∧ (interpret 9 State.new progParamLeak).2
      = .fail (.rtErr "Undefined variable: p") := by
  refine ⟨?_, rfl, rfl, rfl⟩
  simp [checkStmt]

/-- C10: If, While, DoWhile and For all treat a condition as true exactly
when its evaluated integer is nonzero and as false exactly when it is 0,
and the interpreter runs regardless of the TypeChecker's verdict:
if (5) { let a = 1; } executes its then-block and leaves a = 1 even though
the TypeChecker rejects the program's integer condition. -/
theorem nonzero_condition_semantics (fuel : Nat) (cond : Expr)
    (tb eb body : List Stmt) (var : String) (step : Expr)
    (stA stA1 stA2 : State) (c : Int)
    (stB stB1 stB2 : State)
    (stC stC1 : State)
    (stD stD1 stD2 : State) (d : Int)
    (stE stE1 stE2 : State)
    (stF stF1 : State)
    (stG stG1 stG2 stG3 : State) (g w : Int)
    (ha1 : evalExpr fuel stA cond = (stA1, .ok c)) (hc : c ≠ 0)
    (ha2 : execBlock fuel stA1 tb = (stA2, .ok ()))
    (hb1 : evalExpr fuel stB cond = (stB1, .ok 0))
    (hb2 : execBlock fuel stB1 eb = (stB2, .ok ()))
    (hw0 : evalExpr fuel stC cond = (stC1, .ok 0))
    (hd1 : evalExpr fuel stD cond = (stD1, .ok d)) (hd : d ≠ 0)
    (hd2 : execBlock fuel stD1 body = (stD2, .ok ()))
    (he1 : execBlock fuel stE body = (stE1, .ok ()))
    (he2 : evalExpr fuel stE1 cond = (stE2, .ok 0))
    (hf : evalExpr fuel stF cond = (stF1, .ok 0))
    (hg1 : evalExpr fuel stG cond = (stG1, .ok g)) (hg : g ≠ 0)
    (hg2 : execBlock fuel stG1 body = (stG2, .ok ()))
    (hg3 : evalExpr fuel stG2 step = (stG3, .ok w)) :
    evalStmt (fuel + 1) stA (.If cond tb eb) = (stA2, .ok none)
    ∧ evalStmt (fuel + 1) stB (.If cond tb eb) = (stB2, .ok none)
    ∧ evalStmt (fuel + 1) stC (.While cond body) = (stC1, .ok none)
    ∧ evalStmt (fuel + 1) stD (.While cond body)
      = evalStmt fuel stD2 (.While cond body)
    ∧ evalStmt (fuel + 1) stE (.DoWhile body cond) = (stE2, .ok none)
    ∧ forLoop (fuel + 1) stF var cond step body = (stF1, .ok none)
    ∧ forLoop (fuel + 1) stG var cond step body
      = forLoop fuel { stG3 with env := hmInsert stG3.env var w } var cond step body
    ∧ (interpret 9 State.new progIfFive).2 = .ok ()
    ∧ hmLookup (interpret 9 State.new progIfFive).1.env "a" = some 1
    ∧ checkProgram 9 TCState.new progIfFive
      = .err (.TypeError "Condition in 'if' must be a boolean") := by
  refine ⟨?_, ?_, ?_, ?_, ?_, ?_, ?_, rfl, rfl, rfl⟩
  · simp [evalStmt, ha1, hc, ha2]
  · simp [evalStmt, hb1, hb2]
  · simp [evalStmt, hw0]
  · simp [evalStmt, hd1, hd, hd2]
  · simp [evalStmt, he1, he2]
  · simp [forLoop, hf]
  · simp [forLoop, hg1, hg, hg2, hg3]

/-- Witness for the C10 theorem at concrete states (condition b read from
the environment: 5 in the true states, 0 in the false states). -/
theorem nonzero_condition_semantics_witness :
    evalStmt 9 { env := [("b", 5)], functions := [] }
        (.If (.Variable "b") [] [])
      = ({ env := [("b", 5)], functions := [] }, .ok none)
    ∧ evalStmt 9 { env := [("b", 0)], functions := [] }
        (.If (.Variable "b") [] [])
      = ({ env := [("b", 0)], functions := [] }, .ok none)
    ∧ evalStmt 9 { env := [("b", 0)], functions := [] }
        (.While (.Variable "b") [])
      = ({ env := [("b", 0)], functions := [] }, .ok none)
    ∧ evalStmt 9 { env := [("b", 5)], functions := [] }
        (.While (.Variable "b") [])
      = evalStmt 8 { env := [("b", 5)], functions := [] }
          (.While (.Variable "b") [])
    ∧ evalStmt 9 { env := [("b", 0)], functions := [] }
        (.DoWhile [] (.Variable "b"))
      = ({ env := [("b", 0)], functions := [] }, .ok none)
    ∧ forLoop 9 { env := [("b", 0)], functions := [] } "i" (.Variable "b")
        (.Number 1) []
      = ({ env := [("b", 0)], functions := [] }, .ok none)
    ∧ forLoop 9 { env := [("b", 5)], functions := [] } "i" (.Variable "b")
        (.Number 1) []
      = forLoop 8 { env := [("i", 1), ("b", 5)], functions := [] } "i"
          (.Variable "b") (.Number 1) []
    ∧ (interpret 9 State.new progIfFive).2 = .ok ()
    ∧ hmLookup (interpret 9 State.new progIfFive).1.env "a" = some 1
    ∧ checkProgram 9 TCState.new progIfFive
      = .err (.TypeError "Condition in 'if' must be a boolean") :=
  nonzero_condition_semantics 8 (.Variable "b") [] [] [] "i" (.Number 1)
    { env := [("b", 5)], functions := [] } { env := [("b", 5)], functions := [] }
    { env := [("b", 5)], functions := [] } 5
    { env := [("b", 0)], functions := [] } { env := [("b", 0)], functions := [] }
    { env := [("b", 0)], functions := [] }
    { env := [("b", 0)], functions := [] } { env := [("b", 0)], functions := [] }
    { env := [("b", 5)], functions := [] } { env := [("b", 5)], functions := [] }
    { env := [("b", 5)], functions := [] } 5
    { env := [("b", 0)], functions := [] } { env := [("b", 0)], functions := [] }
    { env := [("b", 0)], functions := [] }
    { env := [("b", 0)], functions := [] } { env := [("b", 0)], functions := [] }
    { env := [("b", 5)], functions := [] } { env := [("b", 5)], functions := [] }
    { env := [("b", 5)], functions := [] } { env := [("b", 5)], functions := [] }
    5 1
    rfl (by decide) rfl rfl rfl rfl rfl (by decide) rfl rfl rfl rfl
    rfl (by decide) rfl rfl
